/-
  Verification of the captcha-service core against its specification.

  The definitions below are shallow embeddings of the Python sources in
  src: the modules puzzle_captcha, cloudflare_captcha, image_cache and
  unsplash_client under captcha_generators, and the Flask routes in
  app.py.  Machine-level details that do not affect the verified
  properties are abstracted: image payloads are opaque strings or a type
  parameter, the wall clock is a natural number, and the token values
  produced by hashing are passed in as parameters since they are opaque
  to the verification logic.
-/
import Mathlib

namespace PuzzleCaptcha

/-- A submitted drag position: the dict with keys id, x, y taken from the
submitted_positions argument of PuzzleCaptcha.verify_drag. -/
structure DragPos where
  id : Int
  x : Int
  y : Int
deriving DecidableEq, Repr

/-- A truth entry: the dict with keys id, correct_x, correct_y taken from
the correct_positions argument of PuzzleCaptcha.verify_drag. -/
structure DragTruth where
  id : Int
  correct_x : Int
  correct_y : Int
deriving DecidableEq, Repr

/-- The dict comprehension building correct_map in verify_drag
(puzzle_captcha.py, line 259): map each truth id to its coordinate pair;
later entries overwrite earlier ones on a duplicate id, as in a Python
dict. -/
def correct_map (correct_positions : List DragTruth) : Int → Option (Int × Int) :=
  correct_positions.foldl
    (fun m p => fun i => if i = p.id then some (p.correct_x, p.correct_y) else m i)
    (fun _ => none)

/-- Embedding of PuzzleCaptcha.verify_drag (puzzle_captcha.py, lines
249-271): the result is False when the lengths differ; otherwise every
submitted entry must have an id that is a key of correct_map and both
coordinates within tolerance of the stored truth. -/
def verify_drag (submitted_positions : List DragPos) (correct_positions : List DragTruth)
    (tolerance : Int) : Bool :=
  if submitted_positions.length = correct_positions.length then
    submitted_positions.all fun s =>
      match correct_map correct_positions s.id with
      | none => false
      | some (cx, cy) => decide (|s.x - cx| ≤ tolerance) && decide (|s.y - cy| ≤ tolerance)
  else
    false

/-- Embedding of PuzzleCaptcha.verify_sliding (puzzle_captcha.py, lines
245-247): the absolute difference of submitted_x and correct_x is at most
tolerance. -/
def verify_sliding (submitted_x correct_x tolerance : Int) : Bool :=
  decide (|submitted_x - correct_x| ≤ tolerance)

end PuzzleCaptcha

namespace ImageGrid

/-- The three outcomes of the route verify_image_captcha in app.py, lines
197-211: the correct response, the please-select-N response, and the
wrong-selection response. -/
inductive Outcome where
  | correct
  | insufficientSelection
  | incorrect
deriving DecidableEq, Repr

/-- Embedding of the route verify_image_captcha (app.py, lines 197-211):
the outcome is correct iff the ascending sorts of the selected and the
stored index lists are equal; otherwise insufficientSelection iff fewer
than required indices were selected; otherwise incorrect.  The Python
builtin sorted on integer lists is embedded as List.insertionSort with
the less-or-equal order; on integers any correct ascending sort agrees. -/
def verify_image_captcha (selected_indices correct_indices : List Int)
    (required : Nat) : Outcome :=
  if selected_indices.insertionSort (· ≤ ·) = correct_indices.insertionSort (· ≤ ·) then
    .correct
  else if selected_indices.length < required then
    .insufficientSelection
  else
    .incorrect

end ImageGrid

namespace CloudflareCaptcha

/-- One entry of the valid_tokens dict: the record with challenge_id,
created_at and expires_at stored by generate_token. -/
structure TokenInfo where
  challenge_id : String
  created_at : Nat
  expires_at : Nat
deriving DecidableEq, Repr

/-- The valid_tokens dict of a CloudflareCaptcha instance, keyed by the
token string. -/
def Store : Type := String → Option TokenInfo

/-- The empty token store of a fresh CloudflareCaptcha instance. -/
def empty_store : Store := fun _ => none

/-- The constant token_expiry = 300 seconds (cloudflare_captcha.py,
line 15). -/
def token_expiry : Nat := 300

/-- Embedding of CloudflareCaptcha.generate_token (cloudflare_captcha.py,
lines 23-35); the sha256 token value is opaque and taken as the parameter
token.  Stores created_at = now and expires_at = now + token_expiry. -/
def generate_token (token challenge_id : String) (now : Nat) (s : Store) : Store :=
  fun k => if k = token then some ⟨challenge_id, now, now + token_expiry⟩ else s k

/-- The expiry sweep at the top of verify_token (cloudflare_captcha.py,
lines 40-44): keep an entry iff its expires_at is strictly greater than
the current time. -/
def sweep (now : Nat) (s : Store) : Store :=
  fun k =>
    match s k with
    | some info => if now < info.expires_at then some info else none
    | none => none

/-- Embedding of CloudflareCaptcha.verify_token (cloudflare_captcha.py,
lines 37-57): sweep expired entries; if the token is still present, pop
it (one-time use) and succeed, otherwise report invalid-or-expired.
Returns the success flag and message together with the updated store. -/
def verify_token (token : String) (now : Nat) (s : Store) : (Bool × String) × Store :=
  match sweep now s token with
  | some _ =>
      ((true, "Verification successful"), fun k => if k = token then none else sweep now s k)
  | none => ((false, "Invalid or expired token"), sweep now s)

/-- The result dict of complete_challenge: either a failure with an error
message, or a success carrying the token and expires_in. -/
structure CompleteResult where
  success : Bool
  error : Option String
  token : Option String
  expires_in : Option Nat
deriving DecidableEq, Repr

/-- Embedding of CloudflareCaptcha.complete_challenge
(cloudflare_captcha.py, lines 70-89); the freshly hashed token value is
the opaque parameter fresh_token. -/
def complete_challenge (challenge_id : String) (user_interaction : Bool)
    (fresh_token : String) (now : Nat) (s : Store) : CompleteResult × Store :=
  if !user_interaction then
    (⟨false, some ("Human interaction required"), none, none⟩, s)
  else
    (⟨true, none, some fresh_token, some token_expiry⟩,
      generate_token fresh_token challenge_id now s)

end CloudflareCaptcha

namespace ImageCache

/-- One file of a category directory: filename paired with modification
time.  save_image names files by appending a jpg extension to the image
id; since that mapping is injective we keep the id itself as the
filename. -/
abbrev FileEntry : Type := String × Nat

/-- Embedding of ImageCache._cleanup_category (image_cache.py, lines
171-186): list the files of the category; if their number exceeds
max_images_per_category, sort by modification time (the stable Python
list sort, embedded as the stable List.insertionSort) and unlink the
oldest files down to the cap.  The value is the list of files remaining
on disk. -/
def cleanup_category (max_images_per_category : Nat) (files : List FileEntry) :
    List FileEntry :=
  if max_images_per_category < files.length then
    (files.insertionSort (fun a b => a.2 ≤ b.2)).drop
      (files.length - max_images_per_category)
  else
    files

/-- Embedding of ImageCache.save_image restricted to one category
directory (image_cache.py, lines 123-169): write the file named by
image_id, replacing any existing file of that name, with a fresh
modification time mtime, then run the category cleanup.  Metadata writes
do not affect the directory contents and are omitted. -/
def save_image (image_id : String) (mtime : Nat) (max_images_per_category : Nat)
    (files : List FileEntry) : List FileEntry :=
  cleanup_category max_images_per_category
    (files.filter (fun f => f.1 ≠ image_id) ++ [(image_id, mtime)])

/-- Sequentially save_image each id-mtime pair of inserts into the
category, left to right. -/
def save_all (max_images_per_category : Nat) (inserts : List FileEntry)
    (files : List FileEntry) : List FileEntry :=
  inserts.foldl (fun fs e => save_image e.1 e.2 max_images_per_category fs) files

/-- The sanitization inside ImageCache._get_category_dir (image_cache.py,
line 47): keep a character when it is alphanumeric or a dash or an
underscore, replace it by an underscore otherwise.  Alphanumeric is
restricted to ASCII, on which Python and this model agree. -/
def sanitize_category (category : String) : String :=
  String.mk (category.toList.map fun c =>
    if c.isAlphanum || c = '-' || c = '_' then c else '_')

/-- The cache root directory: each sanitized category name holds a list
of files.  The filesystem is the source of truth; the advisory metadata
file is not modelled. -/
def CacheFS : Type := String → List FileEntry

/-- Embedding of ImageCache.get_cache_count (image_cache.py, lines
113-117): the number of image files in the directory of the category. -/
def get_cache_count (fs : CacheFS) (category : String) : Nat :=
  (fs (sanitize_category category)).length

/-- Embedding of ImageCache.has_enough_cached (image_cache.py, lines
119-121). -/
def has_enough_cached (fs : CacheFS) (category : String) (min_count : Nat) : Bool :=
  decide (min_count ≤ get_cache_count fs category)

/-- The candidate pool that ImageCache.get_cached_images samples from
(image_cache.py, lines 70-111): the directory listing of the category.
The random sample, decode and resize do not depend on which category
string named the directory. -/
def get_cached_listing (fs : CacheFS) (category : String) : List FileEntry :=
  fs (sanitize_category category)

/-- ImageCache.save_image at the filesystem level: update only the
sanitized directory of the category. -/
def fs_save_image (fs : CacheFS) (category image_id : String) (mtime : Nat)
    (max_images_per_category : Nat) : CacheFS :=
  fun d =>
    if d = sanitize_category category then
      save_image image_id mtime max_images_per_category (fs d)
    else
      fs d

end ImageCache

namespace UnsplashClient

/-- The observable outcome of UnsplashClient.get_random_image: the
returned image, whether the remote Unsplash API was contacted, and
whether the downloaded image was written back to the cache. -/
structure FetchOneResult (α : Type) where
  result : Option α
  remote_called : Bool
  cached_back : Bool
deriving DecidableEq, Repr

/-- Embedding of UnsplashClient.get_random_image (unsplash_client.py,
lines 37-99).  The parameter cached is what the cache lookup for one
image would yield; remote is the image the Unsplash random-photo request
would produce, where none covers HTTP errors, a missing URL and download
failures. -/
def get_random_image {α : Type} (use_cache cache_only_mode : Bool) (cached : Option α)
    (api_key : Option String) (remote : Option α) : FetchOneResult α :=
  match (if use_cache then cached else none) with
  | some img => ⟨some img, false, false⟩
  | none =>
    if cache_only_mode then ⟨none, false, false⟩
    else
      match api_key with
      | none => ⟨none, false, false⟩
      | some _ => ⟨remote, true, remote.isSome && use_cache⟩

/-- The observable outcome of UnsplashClient.get_images_by_query. -/
structure FetchManyResult (α : Type) where
  results : List α
  remote_called : Bool
deriving DecidableEq, Repr

/-- Embedding of UnsplashClient.get_images_by_query (unsplash_client.py,
lines 101-178).  The parameter cache_count is the count reported by the
cache; cached is what the cache lookup for count images would yield;
remote_ok tells whether the search request returned HTTP 200 and remote
holds the successfully downloaded images.  On a non-200 response or an
exception the code falls back to the cache. -/
def get_images_by_query {α : Type} (use_cache cache_only_mode : Bool) (cache_count : Nat)
    (cached : List α) (count : Nat) (api_key : Option String) (remote_ok : Bool)
    (remote : List α) : FetchManyResult α :=
  if use_cache && decide (count ≤ cache_count) && decide (count ≤ cached.length) then
    ⟨cached.take count, false⟩
  else if cache_only_mode then
    ⟨cached, false⟩
  else
    match api_key with
    | none => ⟨cached, false⟩
    | some _ => if remote_ok then ⟨remote.take count, true⟩ else ⟨cached, true⟩

end UnsplashClient

namespace AppRoutes

/-- JSON values, for the payloads the Flask routes in app.py return to
the untrusted client via jsonify. -/
inductive Json where
  | str : String → Json
  | int : Int → Json
  | bool : Bool → Json
  | arr : List Json → Json
  | obj : List (String × Json) → Json

/-- Field lookup in a JSON object rendered as a key-value list. -/
def lookup (resp : List (String × Json)) (key : String) : Option Json :=
  (resp.find? (fun e => e.1 == key)).map Prod.snd

/-- The keys of a JSON object; empty for non-objects. -/
def entry_keys : Json → List String
  | .obj fields => fields.map Prod.fst
  | _ => []

/-- The elements of a JSON array; empty for non-arrays. -/
def arr_elems : Json → List Json
  | .arr l => l
  | _ => []

/-- The dict returned by PuzzleCaptcha.generate_sliding_puzzle
(puzzle_captcha.py, lines 155-165); image payloads are opaque base64
strings. -/
structure SlidingResult where
  background : String
  piece : String
  piece_y : Int
  correct_x : Int
  tolerance : Int
  puzzle_width : Int
  puzzle_height : Int
  piece_size : Int
deriving DecidableEq, Repr

/-- The JSON body the route generate_sliding_puzzle (app.py, lines
252-267) returns to the client, built from the generator result after
storing correct_x and tolerance in the server-side session. -/
def sliding_response (r : SlidingResult) : List (String × Json) :=
  [("background", .str r.background),
   ("piece", .str r.piece),
   ("piece_y", .int r.piece_y),
   ("puzzle_width", .int r.puzzle_width),
   ("puzzle_height", .int r.puzzle_height),
   ("piece_size", .int r.piece_size)]

/-- One entry of the pieces list built by
PuzzleCaptcha.generate_drag_puzzle (puzzle_captcha.py, lines 205-210). -/
structure DragPiece where
  id : Int
  image : String
  correct_x : Int
  correct_y : Int
deriving DecidableEq, Repr

/-- The dict returned by PuzzleCaptcha.generate_drag_puzzle
(puzzle_captcha.py, lines 234-243); positions is the truth list of
id-x-y dicts built at lines 190-194. -/
structure DragResult where
  background : String
  pieces : List DragPiece
  positions : List PuzzleCaptcha.DragPos
  tolerance : Int
  puzzle_width : Int
  puzzle_height : Int
  piece_size : Int
deriving DecidableEq, Repr

/-- The JSON rendering of the truth positions list. -/
def positions_json (ps : List PuzzleCaptcha.DragPos) : Json :=
  .arr (ps.map fun p => .obj [("id", .int p.id), ("x", .int p.x), ("y", .int p.y)])

/-- The JSON body the route generate_drag_puzzle (app.py, lines 286-311)
returns to the client: pieces are stripped to id and image, while the
positions value of the generator result is passed through unchanged. -/
def drag_response (r : DragResult) : List (String × Json) :=
  [("background", .str r.background),
   ("pieces", .arr (r.pieces.map fun p => .obj [("id", .int p.id), ("image", .str p.image)])),
   ("positions", positions_json r.positions),
   ("puzzle_width", .int r.puzzle_width),
   ("puzzle_height", .int r.puzzle_height),
   ("piece_size", .int r.piece_size)]

/-- One entry of the images list built by ImageCaptcha.generate
(image_captcha.py, lines 161-166). -/
structure GridImage where
  image : String
  category : String
  is_correct : Bool
  index : Int
deriving DecidableEq, Repr

/-- The dict returned by ImageCaptcha.generate (image_captcha.py, lines
168-174). -/
structure GridResult where
  target : String
  prompt : String
  images : List GridImage
  correct_indices : List Int
  required_selections : Int
deriving DecidableEq, Repr

/-- The JSON body the route generate_image_captcha (app.py, lines
176-194) returns to the client: each image entry keeps only the image
payload and its index; the correct indices go to the session only. -/
def image_captcha_response (r : GridResult) : List (String × Json) :=
  [("prompt", .str r.prompt),
   ("images", .arr (r.images.map fun img =>
      .obj [("image", .str img.image), ("index", .int img.index)])),
   ("required_selections", .int r.required_selections)]

end AppRoutes

/-! ## Helper lemmas for the cache eviction proofs -/

/-- Any single save leaves the category at or under the cap: the cleanup
either keeps a list already at or under the cap or drops down to exactly
the cap. -/
theorem save_image_length_le (image_id : String) (mtime maxn : Nat)
    (files : List ImageCache.FileEntry) :
    (ImageCache.save_image image_id mtime maxn files).length ≤ maxn := by
  unfold ImageCache.save_image ImageCache.cleanup_category
  split
  · rename_i h
    rw [List.length_drop, List.length_insertionSort]
    omega
  · rename_i h
    omega

/-- One save step on a category that currently holds the newest entries
of a history list: saving a strictly newer file with a fresh name yields
the newest entries of the extended history. -/
theorem save_image_step (maxn : Nat) (done : List ImageCache.FileEntry)
    (e : ImageCache.FileEntry)
    (hsort : done.Pairwise (fun a b => a.2 < b.2))
    (hmt : ∀ f ∈ done, f.2 < e.2)
    (hnm : ∀ f ∈ done, f.1 ≠ e.1) :
    ImageCache.save_image e.1 e.2 maxn (done.drop (done.length - maxn)) =
      (done ++ [e]).drop ((done ++ [e]).length - maxn) := by
  obtain ⟨nm, mt⟩ := e
  have hfilter : (done.drop (done.length - maxn)).filter (fun f => f.1 ≠ nm)
      = done.drop (done.length - maxn) := by
    apply List.filter_eq_self.mpr
    intro f hf
    simpa using hnm f ((List.drop_sublist _ _).subset hf)
  have hpair : ((done.drop (done.length - maxn)) ++ [(nm, mt)]).Pairwise
      (fun a b : ImageCache.FileEntry => a.2 ≤ b.2) := by
    rw [List.pairwise_append]
    refine ⟨(hsort.sublist (List.drop_sublist _ _)).imp (fun h => le_of_lt h),
      List.pairwise_singleton _ _, ?_⟩
    intro a ha b hb
    rw [List.mem_singleton] at hb
    subst hb
    exact le_of_lt (hmt a ((List.drop_sublist _ _).subset ha))
  have hfslen : (done.drop (done.length - maxn)).length
      = done.length - (done.length - maxn) := List.length_drop _ _
  unfold ImageCache.save_image ImageCache.cleanup_category
  rw [hfilter]
  have hlen1 : ((done.drop (done.length - maxn)) ++ [(nm, mt)]).length
      = (done.drop (done.length - maxn)).length + 1 := by simp
  by_cases hcap : maxn < ((done.drop (done.length - maxn)) ++ [(nm, mt)]).length
  · rw [if_pos hcap, List.Sorted.insertionSort_eq hpair]
    have hmle : maxn ≤ done.length := by omega
    have hidx : ((done.drop (done.length - maxn)) ++ [(nm, mt)]).length - maxn = 1 := by
      omega
    rw [hidx]
    have key : (done.drop (done.length - maxn)) ++ [(nm, mt)]
        = (done ++ [(nm, mt)]).drop (done.length - maxn) :=
      (List.drop_append_of_le_length (Nat.sub_le _ _)).symm
    rw [key, List.drop_drop]
    have hix2 : (done ++ [(nm, mt)]).length - maxn = (done.length - maxn) + 1 := by
      simp only [List.length_append, List.length_singleton]
      omega
    rw [hix2]
  · rw [if_neg hcap]
    have hd : done.length - maxn = 0 := by omega
    have hidx : (done ++ [(nm, mt)]).length - maxn = 0 := by
      simp only [List.length_append, List.length_singleton]
      omega
    rw [hd, hidx, List.drop_zero, List.drop_zero]

/-- Folding saves of strictly newer, freshly named files over a category
that holds the newest entries of a history yields the newest entries of
the extended history. -/
theorem save_all_drop (maxn : Nat) (inserts : List ImageCache.FileEntry) :
    ∀ done : List ImageCache.FileEntry,
      (done ++ inserts).Pairwise (fun a b => a.2 < b.2) →
      ((done ++ inserts).map Prod.fst).Nodup →
      ImageCache.save_all maxn inserts (done.drop (done.length - maxn)) =
        (done ++ inserts).drop ((done ++ inserts).length - maxn) := by
  induction inserts with
  | nil =>
    intro done hp hn
    simp [ImageCache.save_all]
  | cons e tl ih =>
    intro done hp hn
    have hp' := hp
    have hn' := hn
    rw [List.pairwise_append] at hp'
    obtain ⟨hp1, hp2, hp3⟩ := hp'
    rw [List.map_append, List.nodup_append] at hn'
    obtain ⟨hn1, hn2, hdisj⟩ := hn'
    have hmt : ∀ f ∈ done, f.2 < e.2 := fun f hf => hp3 f hf e (List.mem_cons_self e tl)
    have hnm : ∀ f ∈ done, f.1 ≠ e.1 := by
      intro f hf heq
      refine hdisj (List.mem_map_of_mem _ hf) ?_
      rw [heq]
      exact List.mem_map_of_mem _ (List.mem_cons_self e tl)
    have hstep := save_image_step maxn done e hp1 hmt hnm
    have hih := ih (done ++ [e])
      (by simpa [List.append_assoc] using hp)
      (by simpa [List.append_assoc] using hn)
    simp only [ImageCache.save_all, List.foldl_cons] at hih ⊢
    rw [hstep, hih]
    simp [List.append_assoc]

/-! ## Claim theorems -/

/-- C1: the sliding payload omits correct_x, and the grid payload omits
the correct indices and strips each image entry down to the image and its
index; but the drag payload returned to the untrusted client carries the
full truth positions list unchanged, contradicting the claim for the
drag challenge. -/
theorem c1_client_payload_answer_fields :
    (∀ r : AppRoutes.SlidingResult,
      AppRoutes.lookup (AppRoutes.sliding_response r) ("correct_x") = none) ∧
    (∀ r : AppRoutes.GridResult,
      AppRoutes.lookup (AppRoutes.image_captcha_response r) ("correct_indices") = none ∧
      ((AppRoutes.arr_elems
          ((AppRoutes.lookup (AppRoutes.image_captcha_response r) ("images")).getD
            (.arr []))).map AppRoutes.entry_keys).all
        (fun ks => ks == ["image", "index"]) = true) ∧
    (∀ r : AppRoutes.DragResult,
      ((AppRoutes.arr_elems
          ((AppRoutes.lookup (AppRoutes.drag_response r) ("pieces")).getD
            (.arr []))).map AppRoutes.entry_keys).all
        (fun ks => ks == ["id", "image"]) = true ∧
      AppRoutes.lookup (AppRoutes.drag_response r) ("positions") =
        some (AppRoutes.positions_json r.positions)) := by
  refine ⟨fun r => ?_, fun r => ⟨?_, ?_⟩, fun r => ⟨?_, ?_⟩⟩
  · simp [AppRoutes.lookup, AppRoutes.sliding_response, List.find?]
  · simp [AppRoutes.lookup, AppRoutes.image_captcha_response, List.find?]
  · simp only [AppRoutes.lookup, AppRoutes.image_captcha_response, List.find?]
    simp [AppRoutes.arr_elems, AppRoutes.entry_keys, List.all_eq_true]
  · simp only [AppRoutes.lookup, AppRoutes.drag_response, List.find?]
    simp [AppRoutes.arr_elems, AppRoutes.entry_keys, List.all_eq_true]
  · simp [AppRoutes.lookup, AppRoutes.drag_response, List.find?]

/-- C2 counterexample: a submission of the same length as the truth that
repeats id 0 and omits id 2, every entry within tolerance of the truth
entry for its id, is accepted by verify_drag although its id set differs
from the truth id set. -/
theorem c2_duplicate_id_accepted :
    PuzzleCaptcha.verify_drag
      [⟨0, 10, 10⟩, ⟨0, 10, 10⟩, ⟨1, 110, 10⟩]
      [⟨0, 10, 10⟩, ⟨1, 110, 10⟩, ⟨2, 210, 10⟩] 15 = true ∧
    (2 : Int) ∈ ([⟨0, 10, 10⟩, ⟨1, 110, 10⟩, ⟨2, 210, 10⟩] :
        List PuzzleCaptcha.DragTruth).map PuzzleCaptcha.DragTruth.id ∧
    (2 : Int) ∉ ([⟨0, 10, 10⟩, ⟨0, 10, 10⟩, ⟨1, 110, 10⟩] :
        List PuzzleCaptcha.DragPos).map PuzzleCaptcha.DragPos.id ∧
    ([⟨0, 10, 10⟩, ⟨0, 10, 10⟩, ⟨1, 110, 10⟩] : List PuzzleCaptcha.DragPos).length =
      ([⟨0, 10, 10⟩, ⟨1, 110, 10⟩, ⟨2, 210, 10⟩] : List PuzzleCaptcha.DragTruth).length := by
  decide

/-- C2 amended: verify_drag returns false when the submitted count
differs from the truth count, and when some submitted id is not a key of
the truth map; it does not enforce equality of the id sets, as the
counterexample shows. -/
theorem c2_verify_drag_id_checks (submitted : List PuzzleCaptcha.DragPos)
    (correct : List PuzzleCaptcha.DragTruth) (tolerance : Int) :
    (submitted.length ≠ correct.length →
      PuzzleCaptcha.verify_drag submitted correct tolerance = false) ∧
    (∀ s ∈ submitted, PuzzleCaptcha.correct_map correct s.id = none →
      PuzzleCaptcha.verify_drag submitted correct tolerance = false) := by
  constructor
  · intro h
    unfold PuzzleCaptcha.verify_drag
    simp [h]
  · intro s hs hnone
    unfold PuzzleCaptcha.verify_drag
    by_cases hl : submitted.length = correct.length
    · simp only [hl, if_true]
      cases hall : submitted.all fun s =>
          match PuzzleCaptcha.correct_map correct s.id with
          | none => false
          | some (cx, cy) =>
              decide (|s.x - cx| ≤ tolerance) && decide (|s.y - cy| ≤ tolerance) with
      | false => rfl
      | true =>
        exfalso
        have := List.all_eq_true.mp hall s hs
        rw [hnone] at this
        simp at this
    · simp [hl]

/-- C2 witness: the length check and the id-membership check of the
amended claim, at concrete inputs. -/
theorem c2_verify_drag_id_checks_witness :
    PuzzleCaptcha.verify_drag [⟨0, 0, 0⟩] [] 15 = false ∧
    PuzzleCaptcha.verify_drag [⟨5, 0, 0⟩] [⟨0, 0, 0⟩] 15 = false :=
  ⟨(c2_verify_drag_id_checks [⟨0, 0, 0⟩] [] 15).1 (by decide),
   (c2_verify_drag_id_checks [⟨5, 0, 0⟩] [⟨0, 0, 0⟩] 15).2 ⟨5, 0, 0⟩ (by decide) (by decide)⟩

/-- C3: verify_sliding is true iff the absolute difference of the
submitted and the correct offset is at most the tolerance; at the
boundary, a submission exactly tolerance away succeeds and one at
distance tolerance plus one fails. -/
theorem c3_verify_sliding_tolerance :
    (∀ submitted_x correct_x tolerance : Int,
      PuzzleCaptcha.verify_sliding submitted_x correct_x tolerance = true ↔
        |submitted_x - correct_x| ≤ tolerance) ∧
    (∀ correct_x tolerance : Int, 0 ≤ tolerance →
      PuzzleCaptcha.verify_sliding (correct_x + tolerance) correct_x tolerance = true ∧
      PuzzleCaptcha.verify_sliding (correct_x + tolerance + 1) correct_x tolerance = false) := by
  refine ⟨fun s c t => ?_, fun c t ht => ⟨?_, ?_⟩⟩
  · simp [PuzzleCaptcha.verify_sliding]
  · simp only [PuzzleCaptcha.verify_sliding, decide_eq_true_eq, abs_le]
    omega
  · simp only [PuzzleCaptcha.verify_sliding, decide_eq_false_iff_not, abs_le]
    omega

/-- C3 witness: the boundary behavior at tolerance 3 around the correct
offset 4. -/
theorem c3_verify_sliding_tolerance_witness :
    PuzzleCaptcha.verify_sliding 7 4 3 = true ∧
    PuzzleCaptcha.verify_sliding 8 4 3 = false :=
  c3_verify_sliding_tolerance.2 4 3 (by decide)

/-- C5: grid verification yields the correct outcome iff the ascending
sorts of the submitted and the stored index lists are equal; otherwise it
yields insufficientSelection iff fewer than the required number of
indices were selected; otherwise it yields incorrect. -/
theorem c5_grid_verification_outcomes (selected correct : List Int) (required : Nat) :
    (ImageGrid.verify_image_captcha selected correct required = .correct ↔
      selected.insertionSort (· ≤ ·) = correct.insertionSort (· ≤ ·)) ∧
    (selected.insertionSort (· ≤ ·) ≠ correct.insertionSort (· ≤ ·) →
      (ImageGrid.verify_image_captcha selected correct required = .insufficientSelection ↔
        selected.length < required)) ∧
    (selected.insertionSort (· ≤ ·) ≠ correct.insertionSort (· ≤ ·) →
      ¬ selected.length < required →
      ImageGrid.verify_image_captcha selected correct required = .incorrect) := by
  unfold ImageGrid.verify_image_captcha
  by_cases h1 : selected.insertionSort (· ≤ ·) = correct.insertionSort (· ≤ ·)
  · simp [h1]
  · by_cases h2 : selected.length < required <;> simp [h1, h2]

/-- C5 witness: an undersized wrong selection is reported as
insufficientSelection and a full-sized wrong selection as incorrect. -/
theorem c5_grid_verification_outcomes_witness :
    ImageGrid.verify_image_captcha [2, 0] [0, 1, 2] 3 = .insufficientSelection ∧
    ImageGrid.verify_image_captcha [3, 4, 5] [0, 1, 2] 3 = .incorrect :=
  ⟨((c5_grid_verification_outcomes [2, 0] [0, 1, 2] 3).2.1 (by decide)).mpr (by decide),
   (c5_grid_verification_outcomes [3, 4, 5] [0, 1, 2] 3).2.2 (by decide) (by decide)⟩

/-- C8: with cache-only mode enabled, neither get_random_image nor
get_images_by_query ever contacts the remote image source, for any value
of the use_cache toggle and any cache or remote contents. -/
theorem c8_cache_only_never_calls_remote :
    ∀ (α : Type) (use_cache : Bool) (cached_one : Option α) (api_key : Option String)
      (remote_one : Option α) (cache_count count : Nat) (cached : List α)
      (remote_ok : Bool) (remote : List α),
      (UnsplashClient.get_random_image use_cache true cached_one api_key
        remote_one).remote_called = false ∧
      (UnsplashClient.get_images_by_query use_cache true cache_count cached count api_key
        remote_ok remote).remote_called = false := by
  intro α use_cache cached_one api_key remote_one cache_count count cached remote_ok remote
  constructor
  · unfold UnsplashClient.get_random_image
    cases hc : (if use_cache then cached_one else none) <;> simp
  · unfold UnsplashClient.get_images_by_query
    split <;> rfl

/-- C9: completing a challenge without user interaction always fails with
the interaction-required error, returns no token, and leaves the token
store unchanged. -/
theorem c9_no_interaction_no_token :
    ∀ (challenge_id fresh_token : String) (now : Nat) (s : CloudflareCaptcha.Store),
      (CloudflareCaptcha.complete_challenge challenge_id false fresh_token now s).1.success
          = false ∧
      (CloudflareCaptcha.complete_challenge challenge_id false fresh_token now s).1.error
          = some ("Human interaction required") ∧
      (CloudflareCaptcha.complete_challenge challenge_id false fresh_token now s).1.token
          = none ∧
      (CloudflareCaptcha.complete_challenge challenge_id false fresh_token now s).2 = s := by
  intro challenge_id fresh_token now s
  simp [CloudflareCaptcha.complete_challenge]

/-- C4: a freshly issued token verifies successfully before its expiry; a
successful verification consumes the token, so any later verification of
the same token fails; and a token whose expiry time has been reached
fails verification even if it was never consumed.  The per-token state
thus only moves from issued to consumed or from issued to expired. -/
theorem c4_token_lifecycle (s : CloudflareCaptcha.Store) (token challenge_id : String)
    (t now later : Nat) :
    (now < t + CloudflareCaptcha.token_expiry →
      (CloudflareCaptcha.verify_token token now
        (CloudflareCaptcha.generate_token token challenge_id t s)).1.1 = true) ∧
    ((CloudflareCaptcha.verify_token token now s).1.1 = true →
      (CloudflareCaptcha.verify_token token later
        (CloudflareCaptcha.verify_token token now s).2).1.1 = false) ∧
    (∀ info : CloudflareCaptcha.TokenInfo, s token = some info → info.expires_at ≤ now →
      (CloudflareCaptcha.verify_token token now s).1.1 = false) := by
  refine ⟨fun h => ?_, fun h => ?_, fun info hinfo hexp => ?_⟩
  · simp [CloudflareCaptcha.verify_token, CloudflareCaptcha.sweep,
      CloudflareCaptcha.generate_token, h]
  · unfold CloudflareCaptcha.verify_token at h ⊢
    cases hsw : CloudflareCaptcha.sweep now s token with
    | none => rw [hsw] at h; simp at h
    | some info => simp [CloudflareCaptcha.sweep]
  · simp [CloudflareCaptcha.verify_token, CloudflareCaptcha.sweep, hinfo,
      Nat.not_lt.mpr hexp]

/-- C4 witness: a token issued at time 0 verifies at time 5, the very
same token fails a second verification at time 9999, and an unconsumed
token whose expiry 300 has been reached at time 300 fails. -/
theorem c4_token_lifecycle_witness :
    (CloudflareCaptcha.verify_token ("t") 5
      (CloudflareCaptcha.generate_token ("t") ("c") 0
        CloudflareCaptcha.empty_store)).1.1 = true ∧
    (CloudflareCaptcha.verify_token ("t") 9999
      (CloudflareCaptcha.verify_token ("t") 5
        (CloudflareCaptcha.generate_token ("t") ("c") 0
          CloudflareCaptcha.empty_store)).2).1.1 = false ∧
    (CloudflareCaptcha.verify_token ("t") 300
      (CloudflareCaptcha.generate_token ("t") ("c") 0
        CloudflareCaptcha.empty_store)).1.1 = false :=
  ⟨(c4_token_lifecycle CloudflareCaptcha.empty_store ("t") ("c") 0 5 9999).1 (by decide),
   (c4_token_lifecycle
      (CloudflareCaptcha.generate_token ("t") ("c") 0 CloudflareCaptcha.empty_store)
      ("t") ("c") 0 5 9999).2.1 (by decide),
   (c4_token_lifecycle
      (CloudflareCaptcha.generate_token ("t") ("c") 0 CloudflareCaptcha.empty_store)
      ("t") ("c") 0 300 0).2.2 ⟨("c"), 0, 300⟩ (by decide) (by decide)⟩

/-- C7 counterexample: with use_cache disabled and cache-only mode
enabled, a cache hit exists yet get_random_image returns none rather
than the cache result, so the claimed behavior does not hold for every
combination of the two toggles. -/
theorem c7_cache_disabled_ignores_hit :
    (UnsplashClient.get_random_image false true (some (7 : Nat)) (some ("key"))
      (some (8 : Nat))).result = none ∧
    (none : Option Nat) ≠ some 7 := by
  decide

/-- C7 amended: when use_cache is true, get_random_image consults the
cache first and returns the cache hit when one exists; when cache-only
mode is enabled it never contacts the remote source and returns the
cache result when use_cache is true and none when use_cache is false. -/
theorem c7_fetch_one_cache_first (α : Type) (cache_only : Bool) (cached : Option α)
    (api_key : Option String) (remote : Option α) :
    (∀ i : α, cached = some i →
      (UnsplashClient.get_random_image true cache_only cached api_key remote).result
        = some i) ∧
    (∀ use_cache : Bool,
      (UnsplashClient.get_random_image use_cache true cached api_key remote).remote_called
        = false ∧
      (UnsplashClient.get_random_image use_cache true cached api_key remote).result
        = (if use_cache then cached else none)) := by
  constructor
  · intro i hi
    subst hi
    simp [UnsplashClient.get_random_image]
  · intro use_cache
    cases use_cache <;> cases cached <;>
      simp [UnsplashClient.get_random_image]

/-- C7 witness: a cache hit is returned when use_cache is on, and with
cache-only mode the remote source is skipped while the cache result is
passed through. -/
theorem c7_fetch_one_cache_first_witness :
    (UnsplashClient.get_random_image true false (some (3 : Nat)) none none).result
      = some 3 ∧
    (UnsplashClient.get_random_image true true (some (3 : Nat)) none none).remote_called
      = false :=
  ⟨(c7_fetch_one_cache_first Nat false (some 3) none none).1 3 rfl,
   ((c7_fetch_one_cache_first Nat true (some 3) none none).2 true).1⟩

/-- C10: two category strings that agree after sanitization address the
same on-disk partition: counts, listings and the has-enough check agree,
and an image saved under one category is visible in the listing obtained
under the other. -/
theorem c10_sanitized_categories_share_partition (fs : ImageCache.CacheFS)
    (c1 c2 : String) (hne : c1 ≠ c2)
    (hs : ImageCache.sanitize_category c1 = ImageCache.sanitize_category c2) :
    ImageCache.get_cache_count fs c1 = ImageCache.get_cache_count fs c2 ∧
    ImageCache.get_cached_listing fs c1 = ImageCache.get_cached_listing fs c2 ∧
    (∀ n, ImageCache.has_enough_cached fs c1 n = ImageCache.has_enough_cached fs c2 n) ∧
    (∀ (image_id : String) (mtime maxn : Nat),
      ImageCache.fs_save_image fs c1 image_id mtime maxn
        = ImageCache.fs_save_image fs c2 image_id mtime maxn ∧
      ImageCache.get_cached_listing (ImageCache.fs_save_image fs c1 image_id mtime maxn) c2
        = ImageCache.save_image image_id mtime maxn (ImageCache.get_cached_listing fs c1)) := by
  refine ⟨?_, ?_, fun n => ?_, fun image_id mtime maxn => ⟨?_, ?_⟩⟩
  · simp [ImageCache.get_cache_count, hs]
  · simp [ImageCache.get_cached_listing, hs]
  · simp [ImageCache.has_enough_cached, ImageCache.get_cache_count, hs]
  · funext d
    simp [ImageCache.fs_save_image, hs]
  · simp [ImageCache.fs_save_image, ImageCache.get_cached_listing, hs]

/-- C10 witness: the category strings car-space-vehicle and
car-question-mark-vehicle are distinct but sanitize identically, and the
cache count agrees between them on a filesystem holding one file in
their shared partition. -/
theorem c10_sanitized_categories_share_partition_witness :
    ImageCache.get_cache_count
      (fun d => if d = ("car_vehicle") then [(("a"), 1)] else []) ("car vehicle") =
    ImageCache.get_cache_count
      (fun d => if d = ("car_vehicle") then [(("a"), 1)] else []) ("car?vehicle") :=
  (c10_sanitized_categories_share_partition
    (fun d => if d = ("car_vehicle") then [(("a"), 1)] else [])
    ("car vehicle") ("car?vehicle") (by decide) (by decide)).1

/-- C6 counterexample: inserting three assets into a category with cap
two retains the two most recently written assets, not the k equal one
most recently written asset the claim names: the result differs from the
one-element suffix of the insert history. -/
theorem c6_retained_not_k_most_recent :
    ImageCache.save_all 2 [(("a"), 1), (("b"), 2), (("c"), 3)] []
      = [(("b"), 2), (("c"), 3)] ∧
    ImageCache.save_all 2 [(("a"), 1), (("b"), 2), (("c"), 3)] []
      ≠ ([(("a"), 1), (("b"), 2), (("c"), 3)] : List ImageCache.FileEntry).drop 2 := by
  decide

/-- C6 amended: after inserting maxPerCategory plus k assets with fresh
names and strictly increasing modification times into an empty category,
the on-disk count equals exactly maxPerCategory and the retained assets
are the maxPerCategory most recently written ones; and immediately after
any save the category holds at most maxPerCategory assets, the
oldest-by-modification-time being deleted first when over the cap. -/
theorem c6_eviction_cap_and_recency (maxn k : Nat) (inserts : List ImageCache.FileEntry)
    (hmt : inserts.Pairwise (fun a b => a.2 < b.2))
    (hids : (inserts.map Prod.fst).Nodup)
    (hlen : inserts.length = maxn + k) (hk : 0 < k) :
    ImageCache.save_all maxn inserts [] = inserts.drop k ∧
    (ImageCache.save_all maxn inserts []).length = maxn ∧
    ∀ (image_id : String) (mtime : Nat) (files : List ImageCache.FileEntry),
      (ImageCache.save_image image_id mtime maxn files).length ≤ maxn := by
  have h := save_all_drop maxn inserts [] (by simpa using hmt) (by simpa using hids)
  simp only [List.nil_append, List.drop_nil] at h
  have hk2 : inserts.length - maxn = k := by omega
  rw [hk2] at h
  refine ⟨h, ?_, fun image_id mtime files => save_image_length_le image_id mtime maxn files⟩
  rw [h, List.length_drop]
  omega

/-- C6 witness: the amended claim at cap two and four inserts, retaining
the two most recent assets. -/
theorem c6_eviction_cap_and_recency_witness :
    ImageCache.save_all 2 [(("a"), 1), (("b"), 2), (("c"), 3), (("d"), 4)] []
      = ([(("a"), 1), (("b"), 2), (("c"), 3), (("d"), 4)] :
          List ImageCache.FileEntry).drop 2 ∧
    (ImageCache.save_all 2 [(("a"), 1), (("b"), 2), (("c"), 3), (("d"), 4)] []).length
      = 2 :=
  have h := c6_eviction_cap_and_recency 2 2
    [(("a"), 1), (("b"), 2), (("c"), 3), (("d"), 4)]
    (by decide) (by decide) (by decide) (by decide)
  ⟨h.1, h.2.1⟩
